import Mathlib

/-!
Verification development for `src/locator/local_strategy.cc` (ScyllaDB).

Shallow embedding: the C++ types and member functions of the local
replication strategy are translated into executable Lean definitions.
Machine-level details that the claims do not depend on (hash width of
tokens, the exact address family) are modelled by opaque-looking but
fully concrete carriers (`Int` for tokens, a `Nat`-wrapped address).
The process-wide state read by `utils::fb_utilities::get_broadcast_address()`
is passed explicitly as an `fb_utilities` value.  Seastar futures are
embedded as a sum of an already-resolved value and a suspension awaiting
a (topology read barrier) continuation; the source only ever builds the
resolved form via `make_ready_future`.
-/

namespace locator

/-- Network identity of a storage node (`gms::inet_address`). -/
structure inet_address where
  addr : Nat
deriving DecidableEq, Repr

/-- Ring-position key (`dht::token`): an opaque, totally ordered value. -/
abbrev token := Int

/-- `sstring`: seastar string type, embedded as `String`. -/
abbrev sstring := String

/-- An endpoint set (`utils::sequenced_set<inet_address>`): an ordered
collection of endpoints, embedded as a list (order significant). -/
abbrev endpoint_set := List inet_address

/-- `inet_address_vector_replica_set`: the small-vector return type of the
synchronous fast path, embedded as a list (order significant). -/
abbrev inet_address_vector_replica_set := List inet_address

/-- `replication_strategy_config_options`: option name to value mapping
supplied at strategy construction. -/
abbrev replication_strategy_config_options := List (sstring × sstring)

/-- Cluster topology view: the set of current node endpoints with their
attributes; only the node list is relevant to the claims. -/
structure topology where
  nodes : List inet_address
deriving DecidableEq, Repr

/-- `token_metadata`: a topology snapshot together with the ring
assignment of tokens to owning endpoints. -/
structure token_metadata where
  topo : topology
  ring : List (token × inet_address)
deriving DecidableEq, Repr

/-- `effective_replication_map`: binds a strategy's placement decisions to
one `token_metadata` snapshot; the local strategy never reads it. -/
structure effective_replication_map where
  tm : token_metadata
deriving DecidableEq, Repr

/-- Process-wide state of `utils::fb_utilities`: the broadcast address of
the node this process runs on. -/
structure fb_utilities where
  broadcast_address : inet_address
deriving DecidableEq, Repr

/-- `utils::fb_utilities::get_broadcast_address()`. -/
def fb_utilities.get_broadcast_address (fb : fb_utilities) : inet_address :=
  fb.broadcast_address

/-- A seastar `future<α>`: either already resolved, or suspended awaiting a
topology read barrier before continuing. -/
inductive future (α : Type) : Type where
  | ready : α → future α
  | suspended : (Unit → future α) → future α

/-- `seastar::make_ready_future`. -/
def make_ready_future {α : Type} (a : α) : future α :=
  future.ready a

/-- Whether a future is already resolved (no suspension point). -/
def future.is_ready {α : Type} : future α → Bool
  | future.ready _ => true
  | future.suspended _ => false

/-- The value of an already-resolved future, `none` if it would suspend. -/
def future.value {α : Type} : future α → Option α
  | future.ready a => some a
  | future.suspended _ => none

/-- Type tag stored by the abstract base class.  The C++ enumerator
`replication_strategy_type::local` is rendered `local_strategy_kind`
because `local` is a Lean keyword. -/
inductive replication_strategy_type : Type where
  | simple
  | local_strategy_kind
  | network_topology
  | everywhere_topology
deriving DecidableEq, Repr

/-- `abstract_replication_strategy` base subobject: the configuration
options owned by the instance and its type tag. -/
structure abstract_replication_strategy where
  config_options : replication_strategy_config_options
  strategy_type : replication_strategy_type
deriving DecidableEq, Repr

/-- `locator::local_strategy`: the trivial strategy; it adds no state of
its own beyond the base subobject. -/
structure local_strategy where
  base : abstract_replication_strategy
deriving DecidableEq, Repr

/-- The `local_strategy` constructor: delegates to the base class with the
given options and the `local` type tag. -/
def local_strategy_ctor
    (config_options : replication_strategy_config_options) : local_strategy :=
  local_strategy.mk
    (abstract_replication_strategy.mk config_options
      replication_strategy_type.local_strategy_kind)

/-- `local_strategy::calculate_natural_endpoints`: ignores the token and
the token_metadata, returns a ready future holding the singleton endpoint
set of this process's broadcast address. -/
def local_strategy.calculate_natural_endpoints (_s : local_strategy)
    (_t : token) (_tm : token_metadata) (fb : fb_utilities) :
    future endpoint_set :=
  make_ready_future [fb.get_broadcast_address]

/-- `local_strategy::validate_options`: the body is empty; it never throws
`exceptions::configuration_exception` (errors are embedded as
`Except String`). -/
def local_strategy.validate_options (_s : local_strategy) :
    Except String Unit :=
  Except.ok ()

/-- `local_strategy::recognized_options`: the body is `return { };` on a
`std::optional<std::set<sstring>>`, which constructs the empty optional
(`std::nullopt`), not an empty set. -/
def local_strategy.recognized_options (_s : local_strategy)
    (_top : topology) : Option (List sstring) :=
  none

/-- `local_strategy::get_replication_factor`: constant `1`. -/
def local_strategy.get_replication_factor (_s : local_strategy)
    (_tm : token_metadata) : Nat :=
  1

/-- `local_strategy::get_natural_endpoints`: synchronous fast path;
ignores the token and the effective replication map, returns the singleton
of this process's broadcast address. -/
def local_strategy.get_natural_endpoints (_s : local_strategy)
    (_t : token) (_erm : effective_replication_map) (fb : fb_utilities) :
    inet_address_vector_replica_set :=
  [fb.get_broadcast_address]

/-- The factory a `class_registrator` instance registers: constructs a
`local_strategy` from configuration options. -/
def local_strategy_factory
    (config_options : replication_strategy_config_options) : local_strategy :=
  local_strategy_ctor config_options

/-- Qualified registry key used by the static `registrator` object. -/
def qualified_name : String :=
  "org.apache.cassandra.locator.LocalStrategy"

/-- Short registry key used by the static `registrator_short_name` object. -/
def short_name : String :=
  "LocalStrategy"

/-- The process-wide strategy registry as populated by the two static
`class_registrator` objects at the bottom of the translation unit: both
keys map to the same factory. -/
def strategy_registry :
    List (String × (replication_strategy_config_options → local_strategy)) :=
  [(qualified_name, local_strategy_factory),
   (short_name, local_strategy_factory)]

/-- C1: for every token and every topology snapshot, the local strategy's
`calculate_natural_endpoints` returns an endpoint set containing exactly
one endpoint, the invoking node's own broadcast address. -/
theorem C1_calculate_natural_endpoints_singleton (s : local_strategy)
    (t : token) (tm : token_metadata) (fb : fb_utilities) :
    s.calculate_natural_endpoints t tm fb =
      make_ready_future [fb.get_broadcast_address] :=
  rfl

/-- C2: for every topology snapshot, the local strategy's
`get_replication_factor` returns the constant `1`. -/
theorem C2_get_replication_factor_one (s : local_strategy)
    (tm : token_metadata) :
    s.get_replication_factor tm = 1 :=
  rfl

/-- C3 counterexample: at a concrete strategy built from the non-empty
option mapping `[(foo, bar)]` and a concrete one-node topology,
`recognized_options` does not return the empty set of option names: it
returns the empty optional (`none`, i.e. unconstrained), and
`validate_options` accepts the non-empty mapping, so the mapping is not
rejected by configuration validation. -/
theorem C3_counterexample :
    (local_strategy_factory [("foo", "bar")]).recognized_options
        (topology.mk [inet_address.mk 1]) ≠ some ([] : List sstring)
      ∧ (local_strategy_factory [("foo", "bar")]).recognized_options
        (topology.mk [inet_address.mk 1]) = none
      ∧ (local_strategy_factory [("foo", "bar")]).validate_options =
        Except.ok () :=
  ⟨by decide, rfl, rfl⟩

/-- C3 amended: for every topology, the local strategy's
`recognized_options` returns the empty optional (no constraint set,
meaning unconstrained), and `validate_options` is a no-op, so a non-empty
option mapping is not rejected by configuration validation. -/
theorem C3_recognized_options_none (s : local_strategy) (top : topology) :
    s.recognized_options top = none ∧ s.validate_options = Except.ok () :=
  ⟨rfl, rfl⟩

/-- C4: for every configuration-options mapping the local strategy is
constructed with, `validate_options` never fails: it returns success
rather than an `InvalidConfiguration` error, and being a pure function of
the unchanged instance it is a no-op. -/
theorem C4_validate_options_never_fails
    (opts : replication_strategy_config_options) :
    (local_strategy_factory opts).validate_options = Except.ok () :=
  rfl

/-- C5: endpoint-set calculation is deterministic: with the strategy
instance, topology snapshot, token, effective replication map and process
broadcast address all fixed, two invocations of
`calculate_natural_endpoints` yield identical futures and two invocations
of `get_natural_endpoints` yield identical endpoint vectors, order
included. -/
theorem C5_calculation_deterministic (s : local_strategy) (t : token)
    (tm : token_metadata) (erm : effective_replication_map)
    (fb : fb_utilities) (r₁ r₂ : future endpoint_set)
    (v₁ v₂ : inet_address_vector_replica_set)
    (h₁ : r₁ = s.calculate_natural_endpoints t tm fb)
    (h₂ : r₂ = s.calculate_natural_endpoints t tm fb)
    (h₃ : v₁ = s.get_natural_endpoints t erm fb)
    (h₄ : v₂ = s.get_natural_endpoints t erm fb) :
    r₁ = r₂ ∧ v₁ = v₂ :=
  ⟨h₁.trans h₂.symm, h₃.trans h₄.symm⟩

/-- C5 witness: the determinism theorem applied at a concrete strategy,
token `0`, an empty snapshot and broadcast address `7`. -/
theorem C5_calculation_deterministic_witness :
    (make_ready_future [inet_address.mk 7] : future endpoint_set) =
        make_ready_future [inet_address.mk 7]
      ∧ ([inet_address.mk 7] : inet_address_vector_replica_set) =
        [inet_address.mk 7] :=
  C5_calculation_deterministic (local_strategy_factory []) 0
    (token_metadata.mk (topology.mk []) [])
    (effective_replication_map.mk (token_metadata.mk (topology.mk []) []))
    (fb_utilities.mk (inet_address.mk 7))
    (make_ready_future [inet_address.mk 7])
    (make_ready_future [inet_address.mk 7])
    [inet_address.mk 7] [inet_address.mk 7] rfl rfl rfl rfl

/-- C6: the local strategy is exempt from the empty-topology failure: on a
snapshot with zero nodes, `calculate_natural_endpoints` still succeeds
with a ready (non-failing) future holding the non-empty singleton of the
node's own address, since it never reads the topology. -/
theorem C6_empty_topology_exempt (s : local_strategy) (t : token)
    (tm : token_metadata) (fb : fb_utilities)
    (h : tm.topo.nodes = []) :
    s.calculate_natural_endpoints t tm fb =
        make_ready_future [fb.get_broadcast_address]
      ∧ [fb.get_broadcast_address] ≠ ([] : endpoint_set) :=
  ⟨rfl, by simp⟩

/-- C6 witness: the exemption theorem applied at a zero-node snapshot,
token `0` and broadcast address `3`. -/
theorem C6_empty_topology_exempt_witness :
    (local_strategy_factory []).calculate_natural_endpoints 0
        (token_metadata.mk (topology.mk []) [])
        (fb_utilities.mk (inet_address.mk 3)) =
        make_ready_future [inet_address.mk 3]
      ∧ [inet_address.mk 3] ≠ ([] : endpoint_set) :=
  C6_empty_topology_exempt (local_strategy_factory []) 0
    (token_metadata.mk (topology.mk []) [])
    (fb_utilities.mk (inet_address.mk 3)) rfl

/-- C7: the local strategy ignores the token entirely: for every topology
snapshot and every pair of tokens, `calculate_natural_endpoints` agrees on
both tokens, and `get_natural_endpoints` agrees on both tokens against a
fixed effective replication map. -/
theorem C7_token_ignored (s : local_strategy) (tm : token_metadata)
    (erm : effective_replication_map) (fb : fb_utilities)
    (t₁ t₂ : token) :
    s.calculate_natural_endpoints t₁ tm fb =
        s.calculate_natural_endpoints t₂ tm fb
      ∧ s.get_natural_endpoints t₁ erm fb =
        s.get_natural_endpoints t₂ erm fb :=
  ⟨rfl, rfl⟩

/-- C8: the strategy registry holds the local strategy under both the
fully-qualified name and the short name, both keys map to the same
factory, and that factory constructs a `local_strategy` instance from a
configuration-options mapping via the constructor. -/
theorem C8_registry_two_keys_same_factory
    (opts : replication_strategy_config_options) :
    strategy_registry.lookup qualified_name = some local_strategy_factory
      ∧ strategy_registry.lookup short_name = some local_strategy_factory
      ∧ local_strategy_factory opts =
        local_strategy.mk
          (abstract_replication_strategy.mk opts
            replication_strategy_type.local_strategy_kind) :=
  ⟨rfl, rfl, rfl⟩

/-- C9: for every token and every token_metadata,
`calculate_natural_endpoints` returns an already-resolved future: it is
ready immediately, awaiting no topology read barrier. -/
theorem C9_ready_future (s : local_strategy) (t : token)
    (tm : token_metadata) (fb : fb_utilities) :
    (s.calculate_natural_endpoints t tm fb).is_ready = true :=
  rfl

/-- C10: the two lookup paths agree: for every token, token_metadata and
effective replication map, the value of the asynchronous
`calculate_natural_endpoints` equals the result of the synchronous
fast-path `get_natural_endpoints`; both are the singleton of the node's
broadcast address. -/
theorem C10_paths_agree (s : local_strategy) (t : token)
    (tm : token_metadata) (erm : effective_replication_map)
    (fb : fb_utilities) :
    (s.calculate_natural_endpoints t tm fb).value =
        some (s.get_natural_endpoints t erm fb)
      ∧ s.get_natural_endpoints t erm fb = [fb.get_broadcast_address] :=
  ⟨rfl, rfl⟩

end locator
